import Mathlib

/-!
Verification development for the MDCACHE metadata-cache layer
(src/FSAL/Stackable_FSALs/FSAL_MDCACHE/mdcache_helpers.c and
mdcache_handle.c).  The C data structures and the control flow of the
functions under scrutiny are shallowly embedded as executable Lean
definitions; the theorems at the end of the file settle the stated
properties of those functions.
-/

namespace MDC

/-- Major FSAL status codes used by the mdcache layer (subset of
`fsal_errors_t` that appears in the embedded functions). -/
inductive FsalErr where
  | NO_ERROR
  | STALE
  | NOENT
  | EXIST
  | OVERFLOW
  | NOMEM
  | INVAL
  | XDEV
  | BADCOOKIE
  | DELAY
  | SERVERFAULT
  | NOTDIR
  | NOTEMPTY
  deriving DecidableEq, Repr

open FsalErr

/-- Embedding of `fsal_status_t`: a major error code plus a minor (errno)
value. -/
structure fsal_status_t where
  major : FsalErr
  minor : Int
  deriving DecidableEq, Repr

/-- Embedding of the C helper `fsalstat(major, minor)`. -/
def fsalstat (major : FsalErr) (minor : Int) : fsal_status_t :=
  ⟨major, minor⟩

/-- Embedding of the `FSAL_IS_ERROR` test: any major other than
`ERR_FSAL_NO_ERROR` is an error. -/
def FSAL_IS_ERROR (s : fsal_status_t) : Bool :=
  s.major != NO_ERROR

/-- The atomic `mde_flags` bitset of a cache entry, with one Boolean per
flag bit (MDCACHE_TRUST_ATTRS, MDCACHE_TRUST_CONTENT,
MDCACHE_TRUST_DIR_CHUNKS, MDCACHE_DIR_POPULATED, MDCACHE_BYPASS_DIRCACHE,
MDCACHE_UNREACHABLE).  `atomic_set_uint32_t_bits` /
`atomic_clear_uint32_t_bits` become field updates. -/
structure MdeFlags where
  trust_attrs : Bool
  trust_content : Bool
  trust_dir_chunks : Bool
  dir_populated : Bool
  bypass_dircache : Bool
  unreachable : Bool
  deriving DecidableEq, Repr

/- ------------------------------------------------------------------ -/
/- C1: export mapping and the unexport barrier (mdc_check_mapping,     -/
/- mdcache_alloc_handle, the miss path of mdcache_new_entry).          -/
/- ------------------------------------------------------------------ -/

/-- State visible to `mdc_check_mapping` (mdcache_helpers.c:291).  The
export's `MDC_UNEXPORT` flag is an atomic read by a racing unexport
thread, so the two program points at which the function reads it are
modelled as two separate Boolean observations: `unexport_precheck` is the
value loaded at the atomic pre-check at the top of the function, and
`unexport_recheck` is the value loaded again after `attr_lock` (write) and
`mdc_exp_lock` have been acquired. -/
structure MappingState where
  /-- value of `export->flags & MDC_UNEXPORT` at the initial atomic check -/
  unexport_precheck : Bool
  /-- value of `export->flags & MDC_UNEXPORT` at the re-check under locks -/
  unexport_recheck : Bool
  /-- the entry's `first_export_id` fast-path field (-1 when unset) -/
  first_export_id : Int
  /-- id of the current export (`op_ctx->ctx_export->export_id`) -/
  export_id : Nat
  /-- id of the entry itself (used for the export's `entry_list`) -/
  entry_id : Nat
  /-- export ids recorded on the entry's `export_list` -/
  entry_export_list : List Nat
  /-- entry ids recorded on the current export's `entry_list` -/
  export_entry_list : List Nat
  deriving DecidableEq, Repr

/-- Embedding of `mdc_check_mapping` (mdcache_helpers.c:291-373).
Returns the FSAL status together with the updated mapping state.  The
`again` loop body (the list scan) runs once under the read lock and once
under the write lock; in this sequential model both scans see the same
list, so a single membership test stands for both. -/
def mdc_check_mapping (s : MappingState) : fsal_status_t × MappingState :=
  if s.unexport_precheck then
    -- In the process of unexporting: return a stale error.
    (fsalstat STALE 116, s)
  else if s.first_export_id == (s.export_id : Int) then
    -- Fast path: this export is already mapped.
    (fsalstat NO_ERROR 0, s)
  else if s.export_id ∈ s.entry_export_list then
    -- Found active export on the list (read-lock scan or write-lock rescan).
    (fsalstat NO_ERROR 0, s)
  else if s.unexport_recheck then
    -- Unexport started while the locks were being juggled: stale error,
    -- no mapping record is created.
    (fsalstat STALE 116, s)
  else
    -- Append a fresh mapping record on both lists; if the entry had no
    -- mappings yet, record this export as first_export_id.
    (fsalstat NO_ERROR 0,
      { s with
        first_export_id :=
          if s.entry_export_list.isEmpty then (s.export_id : Int)
          else s.first_export_id
        entry_export_list := s.entry_export_list ++ [s.export_id]
        export_entry_list := s.export_entry_list ++ [s.entry_id] })

/-- Embedding of `mdcache_alloc_handle` (mdcache_helpers.c:162-225),
restricted to its interaction with the export mapping: the fresh entry is
mapped via `mdc_check_mapping`; if that fails (unexport in progress) the
entry is discarded and NULL is returned, otherwise the entry (with its
updated mapping state) is returned. -/
def mdcache_alloc_handle (s : MappingState) : Option MappingState :=
  let (status, s') := mdc_check_mapping s
  if FSAL_IS_ERROR status then none else some s'

/-- Embedding of the cache-miss path of `mdcache_new_entry`
(mdcache_helpers.c:538-598): after `mdcache_find_keyed` returned NOENT,
the entry is allocated with `mdcache_alloc_handle`; a NULL result means
unexport was in progress and the whole call fails with ERR_FSAL_STALE. -/
def mdcache_new_entry_miss (s : MappingState) : fsal_status_t × MappingState :=
  match mdcache_alloc_handle s with
  | none => (fsalstat STALE 0, s)
  | some s' => (fsalstat NO_ERROR 0, s')

/- ------------------------------------------------------------------ -/
/- Attribute model (C4, C10): mtime, change counter, refresh.          -/
/- ------------------------------------------------------------------ -/

/-- Embedding of `struct timespec` as used for `attrs.mtime`. -/
structure TimeSpec where
  tv_sec : Int
  tv_nsec : Int
  deriving DecidableEq, Repr

/-- Modelled from the spec: `gsh_time_cmp` (defined in a common-utils
header that is not part of this source tree) compares two timespecs,
seconds first and nanoseconds second, returning -1, 0 or 1.  The spec
phrases its use as "the new mtime is greater than the old". -/
def gsh_time_cmp (a b : TimeSpec) : Int :=
  if a.tv_sec < b.tv_sec then -1
  else if a.tv_sec > b.tv_sec then 1
  else if a.tv_nsec < b.tv_nsec then -1
  else if a.tv_nsec > b.tv_nsec then 1
  else 0

/-- The slice of `struct attrlist` that the embedded functions consult:
the modification time and the change counter (a uint64). -/
structure Attrs where
  mtime : TimeSpec
  change : Nat
  deriving DecidableEq, Repr

/- ------------------------------------------------------------------ -/
/- Directory content model: dirents, chunks, and the per-directory     -/
/- payload (three trees, chunk list, detached list).                   -/
/- ------------------------------------------------------------------ -/

/-- Embedding of `mdcache_dir_entry_t`.  `hk_k` is the AVL hash key
`hk.k` that the legacy (non-chunked) readdir path uses as the dirent's
cookie; `ck` is the FSAL-provided cookie used by the chunked path (0 when
unknown); `ckey` stands for the child's cache key; `deleted` is the
DIR_ENTRY_FLAG_DELETED flag. -/
structure Dirent where
  name : String
  hk_k : Nat
  ck : Nat
  ckey : Nat
  eod : Bool
  deleted : Bool
  deriving DecidableEq, Repr

/-- Embedding of `struct dir_chunk`: a contiguous run of dirents in
sub-FSAL readdir order.  Chunks are identified by an `id` standing for
the chunk's address; `prev_chunk` holds the id of the previous chunk. -/
structure Chunk where
  id : Nat
  dirents : List Dirent
  num_entries : Nat
  next_ck : Nat
  prev_chunk : Option Nat
  deriving DecidableEq, Repr

/-- The tunable `mdcache_param.dir` parameters consulted by the embedded
functions, plus `retry_readdir`. -/
structure MdcacheParam where
  avl_max : Nat
  avl_chunk : Nat
  avl_chunk_split : Nat
  avl_detached_max : Nat
  retry_readdir : Bool
  deriving DecidableEq, Repr

/-- The directory payload of a cache entry (`fsobj.fsdir`) together with
the entry's flags and type.  `active` is the by-name tree of active
dirents (`avl.t`), `deleted` the tree of deleted dirents (`avl.c`),
`chunks` the chunk list, `detached` the detached-dirent LRU (head = MRU).
`next_chunk_id` models the allocator handing out fresh chunk addresses.
A dirent that belongs to a chunk appears both in the name trees and in
its chunk's dirent list (one C object linked into several containers). -/
structure DirState where
  isDirectory : Bool
  flags : MdeFlags
  active : List Dirent
  deleted : List Dirent
  chunks : List Chunk
  detached : List Dirent
  first_ck : Nat
  icreate_refcnt : Nat
  next_chunk_id : Nat
  deriving DecidableEq, Repr

/-- Modelled from the spec: `mdc_dircache_trusted` (defined in
mdcache_int.h, which is not part of this source tree) holds when the
directory content is authoritative, i.e. both MDCACHE_TRUST_CONTENT and
MDCACHE_DIR_POPULATED are set. -/
def mdc_dircache_trusted (d : DirState) : Bool :=
  d.flags.trust_content && d.flags.dir_populated

/-- Embedding of `mdcache_dirent_invalidate_all`
(mdcache_helpers.c:496-513): drop every chunk
(`mdcache_clean_dirent_chunks`), clean the active and deleted name trees
(`mdcache_avl_clean_trees`, which also empties the detached list since
detached dirents live in the name tree), clear MDCACHE_DIR_POPULATED and
set MDCACHE_TRUST_CONTENT and MDCACHE_TRUST_DIR_CHUNKS.  `first_ck` is
reset with the chunks (spec invariant: `first_ck` is 0 or the cookie of
the first dirent of the earliest cached chunk). -/
def mdcache_dirent_invalidate_all (d : DirState) : DirState :=
  { d with
    chunks := []
    active := []
    deleted := []
    detached := []
    first_ck := 0
    flags := { d.flags with
               dir_populated := false
               trust_content := true
               trust_dir_chunks := true } }

/-- Modelled from the spec: `avl_dirent_set_deleted` (mdcache_avl.c is
not part of this source tree) marks a dirent DELETED: it is moved from
the active tree to the deleted tree and is no longer resolvable by name,
but its cookie and chunk position are preserved. -/
def avl_dirent_set_deleted (d : DirState) (name : String) : DirState :=
  let gone := (d.active.filter (fun x => x.name == name)).map
      (fun x => { x with deleted := true })
  { d with
    active := d.active.filter (fun x => x.name != name)
    deleted := d.deleted ++ gone
    chunks := d.chunks.map (fun c =>
      { c with dirents := c.dirents.map (fun x =>
          if x.name == name then { x with deleted := true } else x) }) }

/-- Embedding of `mdcache_dirent_find` (mdcache_helpers.c:1463-1494):
look the name up in the active tree; when the directory cache is trusted
a miss is NOENT, otherwise a miss is a success with no dirent. -/
def mdcache_dirent_find (d : DirState) (name : String) :
    fsal_status_t × Option Dirent :=
  if !d.isDirectory then (fsalstat NOTDIR 0, none)
  else if d.active.length == 0 then
    if mdc_dircache_trusted d then (fsalstat NOENT 0, none)
    else (fsalstat NO_ERROR 0, none)
  else
    match d.active.find? (fun x => x.name == name) with
    | some dirent => (fsalstat NO_ERROR 0, some dirent)
    | none =>
      if mdc_dircache_trusted d then (fsalstat NOENT 0, none)
      else (fsalstat NO_ERROR 0, none)

/-- Embedding of `mdcache_dirent_remove` (mdcache_helpers.c:1587-1614):
nothing happens in bypass mode; a NOENT from the find is success; an
existing dirent is marked deleted. -/
def mdcache_dirent_remove (d : DirState) (name : String) :
    fsal_status_t × DirState :=
  if d.flags.bypass_dircache then (fsalstat NO_ERROR 0, d)
  else
    let (status, dirent) := mdcache_dirent_find d name
    if FSAL_IS_ERROR status then
      if status.major == NOENT then (fsalstat NO_ERROR 0, d)
      else (status, d)
    else
      match dirent with
      | none => (status, d)
      | some _ => (fsalstat NO_ERROR 0, avl_dirent_set_deleted d name)

/- ------------------------------------------------------------------ -/
/- place_new_dirent: chunk placement of a freshly discovered dirent,   -/
/- and the chunk-split step (mdcache_helpers.c:1872-2227).             -/
/- ------------------------------------------------------------------ -/

/-- Insertion of a dirent into a chunk's dirent list at position `pos`
(before the current occupant of `pos`), bumping `num_entries` - the
`glist_add_tail` insertions of mdcache_helpers.c:2120-2155 together with
the `chunk->num_entries++` at line 2155. -/
def place_dirent_insert (c : Chunk) (d : Dirent) (pos : Nat) : Chunk :=
  { c with
    dirents := c.dirents.take pos ++ [d] ++ c.dirents.drop pos
    num_entries := c.num_entries + 1 }

/-- Embedding of the chunk-split step of `place_new_dirent`
(mdcache_helpers.c:2160-2206).  When the chunk has reached
`avl_chunk_split` entries it is split: a new chunk (fresh id `newId`)
takes `prev_chunk := the original chunk` and `next_ck := the original
chunk's next_ck`; the dirent list is split after the first
`avl_chunk_split / 2` entries (the scan stops at the first dirent past
the halfway point, `here`); both `num_entries` fields are set to
`avl_chunk_split / 2`, and the original chunk's `next_ck` becomes
`here`'s cookie. -/
def chunk_split_step (p : MdcacheParam) (c : Chunk) (newId : Nat) :
    List Chunk :=
  if c.num_entries == p.avl_chunk_split then
    let split_count := p.avl_chunk_split / 2
    match c.dirents.drop split_count with
    | [] => [c]   -- the source asserts here != NULL; unreachable when
                  -- num_entries tracks the dirent-list length
    | here :: _ =>
      [{ c with
         dirents := c.dirents.take split_count
         num_entries := split_count
         next_ck := here.ck },
       { id := newId
         dirents := c.dirents.drop split_count
         num_entries := split_count
         next_ck := c.next_ck
         prev_chunk := some c.id }]
  else [c]

/-- The insertion-into-a-chunk tail of `place_new_dirent`
(mdcache_helpers.c:2119-2206): place the new dirent at position `pos` of
the chunk, then split if the chunk has reached `avl_chunk_split`. -/
def place_new_dirent_chunk (p : MdcacheParam) (c : Chunk) (d : Dirent)
    (pos : Nat) (newId : Nat) : List Chunk :=
  chunk_split_step p (place_dirent_insert c d pos) newId

/-- All dirents that live in some chunk of the directory (the members of
the by-cookie and by-sort trees). -/
def chunked_dirents (d : DirState) : List Dirent :=
  (d.chunks.map Chunk.dirents).flatten

/-- The chunk holding the dirent with FSAL cookie `ck`, if any. -/
def chunk_of_ck (d : DirState) (ck : Nat) : Option Chunk :=
  d.chunks.find? (fun c => c.dirents.any (fun x => x.ck == ck))

/-- Predecessor of cookie `ck` in the by-sort tree: the chunked dirent
with the largest cookie below `ck`. -/
def sorted_pred (d : DirState) (ck : Nat) : Option Dirent :=
  (chunked_dirents d).foldl
    (fun best x =>
      if x.ck < ck then
        match best with
        | none => some x
        | some b => if b.ck < x.ck then some x else best
      else best) none

/-- Successor of cookie `ck` in the by-sort tree: the chunked dirent with
the smallest cookie above `ck`. -/
def sorted_succ (d : DirState) (ck : Nat) : Option Dirent :=
  (chunked_dirents d).foldl
    (fun best x =>
      if ck < x.ck then
        match best with
        | none => some x
        | some b => if x.ck < b.ck then some x else best
      else best) none

/-- Embedding of `add_detached_dirent` (mdcache_helpers.c:76-111): if the
detached list is at `avl_detached_max`, the LRU (tail) detached dirent is
aged out (removed from the active names tree as well); the new dirent is
added at the MRU (head) position. -/
def add_detached_dirent (p : MdcacheParam) (d : DirState) (x : Dirent) :
    DirState :=
  let d :=
    if d.detached.length == p.avl_detached_max then
      match d.detached.getLast? with
      | none => d
      | some victim =>
        { d with
          detached := d.detached.dropLast
          active := d.active.filter (fun y => y.name != victim.name) }
    else d
  { d with detached := x :: d.detached }

/-- Replace the chunk with id `cid` by the given list of chunks (used to
splice the result of a split back into the directory's chunk list). -/
def replace_chunk (cs : List Chunk) (cid : Nat) (adds : List Chunk) :
    List Chunk :=
  cs.flatMap (fun c => if c.id == cid then adds else [c])

/-- Update the `next_ck` field of the chunk with id `cid`. -/
def set_chunk_next_ck (cs : List Chunk) (cid : Nat) (ck : Nat) :
    List Chunk :=
  cs.map (fun c => if c.id == cid then { c with next_ck := ck } else c)

/-- Embedding of `place_new_dirent` (mdcache_helpers.c:1872-2227) on the
directory state.  `computed_ck` is the result of the sub-FSAL's
`compute_readdir_cookie` for the new name (0 = cannot compute).  The
FIRST_COOKIE re-cookie branch (lines 1927-1956, which recomputes the old
first entry's cookie) is folded into the general
"node with the same cookie found" branch that distrusts the chunks, and
the by-cookie-tree insertion failure (lines 2091-2099, impossible here
because no equal cookie exists on the taken path) is not modelled.
Outcomes mirror the source: distrust-and-detach, keep-trust-and-detach,
or insertion into the neighbouring chunk followed by a possible split. -/
def place_new_dirent (p : MdcacheParam) (d : DirState) (x : Dirent)
    (computed_ck : Nat) : DirState :=
  -- distrust the chunk cache and record the dirent as detached
  let distrust := fun (d : DirState) (x : Dirent) =>
    add_detached_dirent p
      { d with flags := { d.flags with
                          dir_populated := false
                          trust_dir_chunks := false } } x
  if computed_ck == 0 then
    -- FSAL cannot compute the cookie: chunks can no longer be trusted
    distrust d x
  else
    let x := { x with ck := computed_ck }
    -- keep the active-tree copy of the dirent in sync with the cookie
    let d := { d with active := d.active.map (fun y =>
        if y.name == x.name then { y with ck := computed_ck } else y) }
    if (chunked_dirents d).any (fun y => y.ck == computed_ck) then
      -- a node with this cookie already exists: distrust the chunks
      distrust d x
    else if (chunked_dirents d).isEmpty then
      -- the sort tree is empty, there are no chunks to add this entry to
      distrust d x
    else
      match sorted_pred d computed_ck, sorted_succ d computed_ck with
      | none, some right =>
        if d.first_ck == right.ck then
          -- new first entry of the directory: prepend to the first chunk
          match chunk_of_ck d right.ck with
          | none => distrust d x
          | some rc =>
            let pos := rc.dirents.findIdx (fun y => y.ck == right.ck)
            let cs := replace_chunk d.chunks rc.id
                (place_new_dirent_chunk p rc x pos d.next_chunk_id)
            { d with chunks := cs, first_ck := computed_ck,
                     next_chunk_id := d.next_chunk_id + 1 }
        else
          -- somewhere before the first chunk: detached, chunks stay trusted
          add_detached_dirent p d x
      | some left, none =>
        if left.eod then
          -- new last entry of the directory: append to the last chunk,
          -- the eod marker moves to the new dirent
          match chunk_of_ck d left.ck with
          | none => distrust d x
          | some lc =>
            let lc := { lc with dirents := lc.dirents.map (fun y =>
                if y.ck == left.ck then { y with eod := false } else y) }
            let cs := replace_chunk d.chunks lc.id
                (place_new_dirent_chunk p lc { x with eod := true }
                  lc.dirents.length d.next_chunk_id)
            { d with chunks := cs, next_chunk_id := d.next_chunk_id + 1 }
        else
          -- somewhere after the last chunk: detached, chunks stay trusted
          add_detached_dirent p d x
      | some left, some right =>
        match chunk_of_ck d left.ck, chunk_of_ck d right.ck with
        | some lc, some rc =>
          if lc.id != rc.id && rc.prev_chunk != some lc.id then
            -- neighbours straddle a gap between non-adjacent chunks:
            -- detached, chunks stay trusted
            add_detached_dirent p d x
          else
            -- insert before right (into right's chunk), then fix up the
            -- left chunk's next_ck (mdcache_helpers.c:2142-2145)
            let pos := rc.dirents.findIdx (fun y => y.ck == right.ck)
            let cs := replace_chunk d.chunks rc.id
                (place_new_dirent_chunk p rc x pos d.next_chunk_id)
            let cs := set_chunk_next_ck cs lc.id computed_ck
            { d with chunks := cs, next_chunk_id := d.next_chunk_id + 1 }
        | _, _ => distrust d x
      | none, none =>
        -- cannot happen: the sort tree was nonempty
        distrust d x

/-- Embedding of `mdcache_dirent_add` (mdcache_helpers.c:1520-1576).
`hk` stands for the AVL hash key assigned to the new dirent by
`mdcache_avl_qp_insert`; `computed_ck` is the sub-FSAL's
`compute_readdir_cookie` answer used by `place_new_dirent` when chunking
is enabled.  A name collision yields EXIST (the key-equal swap inside
`mdcache_avl_qp_insert` is not distinguished from a collision here).
Returns (status, updated directory, updated `*invalidate`). -/
def mdcache_dirent_add (p : MdcacheParam) (parent : DirState)
    (name : String) (ckey : Nat) (hk : Nat) (computed_ck : Nat)
    (invalidate : Bool) : fsal_status_t × DirState × Bool :=
  if !parent.isDirectory then (fsalstat NOTDIR 0, parent, invalidate)
  else if parent.flags.bypass_dircache then
    (fsalstat NO_ERROR 0, parent, invalidate)
  else if parent.active.any (fun x => x.name == name) then
    (fsalstat EXIST 0, parent, invalidate)
  else
    let x : Dirent :=
      { name := name, hk_k := hk, ck := 0, ckey := ckey,
        eod := false, deleted := false }
    let parent := { parent with active := parent.active ++ [x] }
    if 0 < p.avl_chunk then
      (fsalstat NO_ERROR 0, place_new_dirent p parent x computed_ck, false)
    else
      (fsalstat NO_ERROR 0, parent, invalidate)

/-- Embedding of `mdcache_dirent_rename` (mdcache_helpers.c:1626-1728):
bypass mode is a no-op; under chunking the whole dirent cache is dumped;
otherwise the old dirent is deleted and a new dirent carrying the same
child key is inserted under the new name (with the trusted-overwrite and
collision cases of the source). -/
def mdcache_dirent_rename (p : MdcacheParam) (parent : DirState)
    (oldname newname : String) : fsal_status_t × DirState :=
  if parent.flags.bypass_dircache then (fsalstat NO_ERROR 0, parent)
  else if 0 < p.avl_chunk then
    (fsalstat NO_ERROR 0, mdcache_dirent_invalidate_all parent)
  else
    let (status, dirent) := mdcache_dirent_find parent oldname
    if FSAL_IS_ERROR status then (status, parent)
    else
      match dirent with
      | none => (status, parent)
      | some d1 =>
        let (status2, dirent2) := mdcache_dirent_find parent newname
        if FSAL_IS_ERROR status2 && status2.major != NOENT then
          (status2, parent)
        else
          match dirent2 with
          | some _ =>
            if parent.flags.trust_content then
              -- overwrite: newname's dirent now carries the renamed
              -- entry's key; the oldname dirent is deleted
              let parent :=
                { parent with active := parent.active.map (fun y =>
                    if y.name == newname then { y with ckey := d1.ckey }
                    else y) }
              (status2, avl_dirent_set_deleted parent oldname)
            else
              (fsalstat EXIST 0, parent)
          | none =>
            let parent := avl_dirent_set_deleted parent oldname
            let d2 : Dirent :=
              { name := newname, hk_k := d1.hk_k, ck := 0,
                ckey := d1.ckey, eod := false, deleted := false }
            (fsalstat NO_ERROR 0,
             { parent with active := parent.active ++ [d2] })

/-- Embedding of `mdc_add_cache` (mdcache_helpers.c:1042-1093): refuse
with OVERFLOW when the active by-name tree is over `avl_max`, create the
child entry (its status is an input; the claims only exercise successful
creation), add the dirent, and treat EXIST as success. -/
def mdc_add_cache (p : MdcacheParam) (dir : DirState) (name : String)
    (ckey : Nat) (hk : Nat) (new_entry_status : fsal_status_t) :
    fsal_status_t × DirState :=
  if p.avl_max < dir.active.length then (fsalstat OVERFLOW 0, dir)
  else if FSAL_IS_ERROR new_entry_status then (new_entry_status, dir)
  else
    let (status, dir', _) := mdcache_dirent_add p dir name ckey hk 0 false
    if status.major == EXIST then (fsalstat NO_ERROR 0, dir')
    else (status, dir')

/- ------------------------------------------------------------------ -/
/- Readdir: sub-FSAL stream, uncached pass-through, legacy full        -/
/- population, chunked population, and the dispatching handle op.      -/
/- ------------------------------------------------------------------ -/

/-- Embedding of `enum fsal_dir_result`. -/
inductive fsal_dir_result where
  | DIR_CONTINUE
  | DIR_READAHEAD
  | DIR_TERMINATE
  deriving DecidableEq, Repr

open fsal_dir_result

/-- One directory entry as produced by the sub-FSAL's readdir stream:
name, FSAL cookie, and the child's cache key. -/
structure SubEntry where
  name : String
  ck : Nat
  ckey : Nat
  deriving DecidableEq, Repr

/-- The sub-FSAL readdir contract for cookie-based FSALs: starting from
whence `w`, the stream yields the entries strictly after cookie `w`
(entries are listed in ascending cookie order; whence 0 means the start
of the directory). -/
def sub_readdir_after (entries : List SubEntry) (w : Nat) :
    List SubEntry :=
  if w == 0 then entries else entries.filter (fun e => w < e.ck)

/-- Callback walk of `mdcache_readdir_uncached`
(mdcache_helpers.c:1764-1849): every streamed entry is passed up to the
caller's callback; DIR_TERMINATE stops the stream before end of
directory.  Returns the names handed to the callback and the
end-of-directory flag. -/
def uncached_walk (cb : String → fsal_dir_result) :
    List SubEntry → List String → List String × Bool
  | [], acc => (acc, true)
  | e :: rest, acc =>
    let acc := acc ++ [e.name]
    if cb e.name == DIR_TERMINATE then (acc, false)
    else uncached_walk cb rest acc

/-- Result of a readdir-level operation: FSAL status, the names passed to
the per-dirent user callback in order, the `*eod_met` out-parameter, and
the directory state after the call. -/
structure ReaddirOut where
  status : fsal_status_t
  cbNames : List String
  eod_met : Bool
  dir : DirState
  deriving DecidableEq, Repr

/-- Embedding of `mdcache_readdir_uncached` (mdcache_helpers.c:1824-1849)
for a sub-FSAL whose entry resolution succeeds (the new_entry failure
paths of the callback are not the subject of any claim). -/
def mdcache_readdir_uncached (dir : DirState) (whence : Nat)
    (entries : List SubEntry) (cb : String → fsal_dir_result) :
    ReaddirOut :=
  let (names, eod) := uncached_walk cb (sub_readdir_after entries whence) []
  ⟨fsalstat NO_ERROR 0, names, eod, dir⟩

/-- The per-entry loop of `mdcache_dirent_populate` driven by the
`mdc_populate_dirent` callback (mdcache_helpers.c:3155-3192): each
streamed entry goes through `mdc_add_cache` (child creation assumed to
succeed); XDEV entries are skipped; any other error terminates the
stream (so end of directory is not reached). -/
def populate_walk (p : MdcacheParam) :
    List SubEntry → DirState → fsal_status_t × DirState × Bool
  | [], dir => (fsalstat NO_ERROR 0, dir, true)
  | e :: rest, dir =>
    let (status, dir') := mdc_add_cache p dir e.name e.ckey e.ck
        (fsalstat NO_ERROR 0)
    if FSAL_IS_ERROR status then
      if status.major == XDEV then populate_walk p rest dir'
      else (status, dir', false)
    else populate_walk p rest dir'

/-- Embedding of `mdcache_dirent_populate` (mdcache_helpers.c:3209-3283):
read the complete directory from the sub-FSAL and cache every dirent;
OVERFLOW from the callback is surfaced; a short read yields DELAY when
`retry_readdir` is configured; a complete read marks the directory
populated. -/
def mdcache_dirent_populate (p : MdcacheParam) (dir : DirState)
    (entries : List SubEntry) : fsal_status_t × DirState :=
  if !dir.isDirectory then (fsalstat NOTDIR 0, dir)
  else if dir.flags.dir_populated && dir.flags.trust_content then
    (fsalstat NO_ERROR 0, dir)
  else
    let dir := mdcache_dirent_invalidate_all dir
    let (status, dir, eod) := populate_walk p entries dir
    if status.major == OVERFLOW then (status, dir)
    else if !eod && p.retry_readdir then (fsalstat DELAY 0, dir)
    else if eod then
      (fsalstat NO_ERROR 0,
       { dir with flags := { dir.flags with dir_populated := true } })
    else (status, dir)

/-- The cached-readdir callback loop of the legacy path
(mdcache_handle.c:719-789), starting from a given position in the active
tree; child resolution (mdc_try_get_cached / mdc_lookup_uncached /
getattrs, lines 732-767) is assumed to succeed.  Returns the names
passed to the callback and whether the walk was terminated by the
callback. -/
def cached_readdir_walk (cb : String → fsal_dir_result) :
    List Dirent → List String → List String × Bool
  | [], acc => (acc, false)
  | d :: rest, acc =>
    let acc := acc ++ [d.name]
    if cb d.name == DIR_TERMINATE then (acc, true)
    else cached_readdir_walk cb rest acc

/-- Embedding of `mdcache_kill_entry` as it affects the modelled state:
the entry becomes unreachable. -/
def mdcache_kill_entry (d : DirState) : DirState :=
  { d with flags := { d.flags with unreachable := true } }

/-- The legacy (avl_chunk = 0) body of `mdcache_readdir`
(mdcache_handle.c:643-795): repopulate an untrusted directory (handling
STALE and OVERFLOW from population), reject nonzero cookies below 3 with
BADCOOKIE, locate the continuation point in the name trees, and walk the
active dirents through the user callback.  The active list models the
AVL tree in ascending `hk_k` order. -/
def mdcache_readdir_cached (p : MdcacheParam) (dir : DirState)
    (whence : Nat) (entries : List SubEntry)
    (cb : String → fsal_dir_result) : ReaddirOut :=
  let popResult :=
    if !(mdc_dircache_trusted dir) then mdcache_dirent_populate p dir entries
    else (fsalstat NO_ERROR 0, dir)
  let pst := popResult.1
  let dir := popResult.2
  if FSAL_IS_ERROR pst then
    if pst.major == STALE then ⟨pst, [], false, mdcache_kill_entry dir⟩
    else if pst.major == OVERFLOW then
      -- directory too big: set MDCACHE_BYPASS_DIRCACHE, drop the dirent
      -- cache and pass through to the uncached readdir
      let dir := mdcache_dirent_invalidate_all
        { dir with flags := { dir.flags with bypass_dircache := true } }
      mdcache_readdir_uncached dir whence entries cb
    else ⟨pst, [], false, dir⟩
  else
    if 0 < whence then
      if whence < 3 then
        -- mdcache always uses 1 and 2 for the . and .. cookies
        ⟨fsalstat BADCOOKIE 0, [], false, dir⟩
      else if dir.active.any (fun d => d.hk_k == whence) ||
              dir.deleted.any (fun d => d.hk_k == whence) then
        -- MDCACHE_FLAG_NEXT_ACTIVE: continue at the next active dirent
        let rest := dir.active.filter (fun d => whence < d.hk_k)
        if rest.isEmpty then
          -- MDCACHE_AVL_LAST / MDCACHE_AVL_DELETED
          ⟨fsalstat NO_ERROR 0, [], true, dir⟩
        else
          let (names, terminated) := cached_readdir_walk cb rest []
          ⟨fsalstat NO_ERROR 0, names, !terminated, dir⟩
      else
        ⟨fsalstat BADCOOKIE 0, [], false, dir⟩
    else
      let (names, terminated) := cached_readdir_walk cb dir.active []
      ⟨fsalstat NO_ERROR 0, names, !terminated, dir⟩

/- ------------------------------------------------------------------ -/
/- Chunked readdir (mdcache_populate_dir_chunk,                        -/
/- mdcache_readdir_chunked), for cookie-based sub-FSALs.               -/
/- ------------------------------------------------------------------ -/

/-- Lookup in the by-cookie AVL tree (`mdcache_avl_lookup_ck`): find the
chunked dirent with the given FSAL cookie together with its chunk. -/
def mdcache_avl_lookup_ck (d : DirState) (ck : Nat) :
    Option (Chunk × Dirent) :=
  match d.chunks.find? (fun c => c.dirents.any (fun x => x.ck == ck)) with
  | none => none
  | some c =>
    match c.dirents.find? (fun x => x.ck == ck) with
    | none => none
    | some x => some (c, x)

/-- Folding state of one `mdcache_populate_dir_chunk` call: the directory
(accumulating name-tree insertions), the chunks completed so far in this
call, and the chunk currently being filled. -/
structure PopState where
  dir : DirState
  newChunks : List Chunk
  cur : Chunk
  deriving DecidableEq, Repr

/-- Embedding of `mdc_readdir_chunk_object` (mdcache_helpers.c:2243-2476)
for a cookie-based sub-FSAL with working readahead, on the no-collision
paths: rotate to a fresh chunk when the current one holds `avl_chunk`
entries, create the child entry (assumed to succeed), insert the dirent
in the name tree (a name collision skips the entry, lines 2332-2354; the
key-equal swap and the stitch with an already-cached chunk, lines
2356-2449, are outside the modelled executions), link the previous
chunk's `next_ck` when a chunk receives its first dirent, and append the
dirent to the current chunk. -/
def chunk_object_step (p : MdcacheParam) (s : PopState) (e : SubEntry) :
    PopState :=
  -- readahead: the current chunk is full, finish it and start a new one
  let s :=
    if s.cur.num_entries == p.avl_chunk then
      { dir := { s.dir with next_chunk_id := s.dir.next_chunk_id + 1 }
        newChunks := s.newChunks ++ [s.cur]
        cur := { id := s.dir.next_chunk_id, dirents := [], num_entries := 0,
                 next_ck := 0, prev_chunk := some s.cur.id } }
    else s
  if s.dir.active.any (fun x => x.name == e.name) then
    -- collision while adding the dirent: ignore this entry
    s
  else
    let d : Dirent :=
      { name := e.name, hk_k := e.ck, ck := e.ck, ckey := e.ckey,
        eod := false, deleted := false }
    let dir := { s.dir with active := s.dir.active ++ [d] }
    -- link the first dirent of a new chunk to the previous chunk
    let (dir, newChunks) :=
      if s.cur.num_entries == 0 then
        match s.cur.prev_chunk with
        | some pid =>
          ({ dir with chunks := set_chunk_next_ck dir.chunks pid e.ck },
           set_chunk_next_ck s.newChunks pid e.ck)
        | none => (dir, s.newChunks)
      else (dir, s.newChunks)
    let cur := { s.cur with
                 dirents := s.cur.dirents ++ [d]
                 num_entries := s.cur.num_entries + 1 }
    { dir := dir, newChunks := newChunks, cur := cur }

/-- Mark the last dirent of the chunk as the end-of-directory entry
(mdcache_helpers.c:2663-2674). -/
def mark_last_eod (c : Chunk) : Chunk :=
  match c.dirents.getLast? with
  | none => c
  | some last =>
    { c with dirents := c.dirents.dropLast ++ [{ last with eod := true }] }

/-- Embedding of `mdcache_populate_dir_chunk` (mdcache_helpers.c:
2554-2732) for a cookie-based sub-FSAL (`fso_whence_is_name` unset, so
the whence-is-name rescans of lines 2593-2608 and 2687-2720 do not
arise) whose readdir succeeds and reaches end of directory.  Returns the
status, the updated directory, the first dirent of the first chunk read
(as the pair chunk id and cookie, none when the stream was empty), and
the end-of-directory flag. -/
def mdcache_populate_dir_chunk (p : MdcacheParam) (dir : DirState)
    (whence : Nat) (prev_chunk : Option Nat) (entries : List SubEntry) :
    fsal_status_t × DirState × Option (Nat × Nat) × Bool :=
  let first : Chunk :=
    { id := dir.next_chunk_id, dirents := [], num_entries := 0,
      next_ck := 0, prev_chunk := prev_chunk }
  let dir := { dir with next_chunk_id := dir.next_chunk_id + 1 }
  let s := (sub_readdir_after entries whence).foldl (chunk_object_step p)
      ⟨dir, [], first⟩
  if s.cur.num_entries == 0 then
    -- empty chunk: the readdir yielded nothing, drop the chunk
    (fsalstat NO_ERROR 0, s.dir, none, true)
  else
    let cur := mark_last_eod s.cur
    let dir := { s.dir with chunks := s.dir.chunks ++ s.newChunks ++ [cur] }
    match (s.newChunks ++ [cur]).head? with
    | none => (fsalstat NO_ERROR 0, dir, none, true)
    | some firstChunk =>
      match firstChunk.dirents.head? with
      | none => (fsalstat NO_ERROR 0, dir, none, true)
      | some d0 =>
        (fsalstat NO_ERROR 0, dir, some (firstChunk.id, d0.ck), true)

/-- Outcome of walking the dirents of one chunk in
`mdcache_readdir_chunked`. -/
inductive WalkOut where
  /-- the chunk was exhausted; carries the updated next_ck and names -/
  | finished (next_ck : Nat) (acc : List String)
  /-- the walk returned from inside the loop (callback terminate or eod) -/
  | stopped (eod_met : Bool) (acc : List String)
  deriving DecidableEq, Repr

/-- The per-chunk callback loop of `mdcache_readdir_chunked`
(mdcache_helpers.c:2951-3090): skip the whence dirent itself and deleted
dirents, pass every other dirent to the callback (child resolution,
lines 2975-3034, assumed to succeed), and stop on DIR_TERMINATE or on
the end-of-directory dirent. -/
def readdir_chunk_walk (whence : Nat) (cb : String → fsal_dir_result) :
    List Dirent → Nat → List String → WalkOut
  | [], next_ck, acc => .finished next_ck acc
  | d :: rest, next_ck, acc =>
    if d.ck == whence then readdir_chunk_walk whence cb rest next_ck acc
    else if d.deleted then readdir_chunk_walk whence cb rest next_ck acc
    else
      let acc := acc ++ [d.name]
      let r := cb d.name
      if r == DIR_TERMINATE || d.eod then
        .stopped (r != DIR_TERMINATE && d.eod) acc
      else readdir_chunk_walk whence cb rest d.ck acc

/-- The dirents of the chunk from the one with cookie `ck` onwards. -/
def chunk_tail_from (c : Chunk) (ck : Nat) : List Dirent :=
  c.dirents.dropWhile (fun y => y.ck != ck)

/-- Set the MDCACHE_DIR_POPULATED flag. -/
def set_dir_populated (d : DirState) : DirState :=
  { d with flags := { d.flags with dir_populated := true } }

/-- Clear the MDCACHE_DIR_POPULATED flag. -/
def clear_dir_populated (d : DirState) : DirState :=
  { d with flags := { d.flags with dir_populated := false } }

/-- The `again` loop of `mdcache_readdir_chunked`
(mdcache_helpers.c:2795-3133), fuelled: resolve `look_ck` in the
by-cookie tree or populate a chunk at `next_ck`, then walk the resolved
chunk through the callback, continuing with the next chunk until the
callback terminates or end of directory.  Fuel exhaustion returns
SERVERFAULT and corresponds to no C execution; the theorems below supply
sufficient fuel. -/
def mdcache_readdir_chunked_go (p : MdcacheParam)
    (entries : List SubEntry) (cb : String → fsal_dir_result)
    (whence : Nat) :
    Nat → DirState → Nat → Nat → Bool → Option Nat → List String →
    ReaddirOut
  | 0, dir, _, _, _, _, acc => ⟨fsalstat SERVERFAULT 0, acc, false, dir⟩
  | Nat.succ fuel, dir, next_ck, look_ck, set_first, prev, acc =>
    let handle_chunk := fun (dir : DirState) (c : Chunk) (start_ck : Nat)
        (set_first : Bool) =>
      match readdir_chunk_walk whence cb (chunk_tail_from c start_ck)
          next_ck acc with
      | .stopped eod_met acc =>
        let dir := if eod_met && whence == 0 then set_dir_populated dir
                   else dir
        ⟨fsalstat NO_ERROR 0, acc, eod_met, dir⟩
      | .finished next_ck acc =>
        -- the chunk is exhausted: continue with the next chunk, using
        -- its first cookie for lookup when known
        mdcache_readdir_chunked_go p entries cb whence fuel dir next_ck
          c.next_ck set_first (some c.id) acc
    match (if look_ck == 0 then none else mdcache_avl_lookup_ck dir look_ck)
        with
    | some (c, d) => handle_chunk dir c d.ck set_first
    | none =>
      -- the starting position is not cached: populate a chunk
      let (st, dir, dirent?, eod) :=
        mdcache_populate_dir_chunk p dir next_ck prev entries
      if FSAL_IS_ERROR st then
        if st.major == STALE then ⟨st, acc, false, mdcache_kill_entry dir⟩
        else ⟨st, acc, false, dir⟩
      else
        match dirent? with
        | none =>
          -- end of directory (or empty directory)
          let dir := if whence == 0 then set_dir_populated dir else dir
          ⟨fsalstat NO_ERROR 0, acc, true, dir⟩
        | some (cid, dck) =>
          let dir := if whence == 0 && eod then set_dir_populated dir
                     else clear_dir_populated dir
          let dir := if set_first then { dir with first_ck := dck } else dir
          match dir.chunks.find? (fun c => c.id == cid) with
          | none => ⟨fsalstat SERVERFAULT 0, acc, false, dir⟩
          | some c => handle_chunk dir c dck false

/-- Embedding of `mdcache_readdir_chunked` (mdcache_helpers.c:2753-3133)
for a cookie-based sub-FSAL: flush the dirent cache unless all of
TRUST_CONTENT, DIR_POPULATED and TRUST_DIR_CHUNKS are set, substitute
`first_ck` for a zero whence, and run the lookup/populate/walk loop. -/
def mdcache_readdir_chunked (p : MdcacheParam) (dir : DirState)
    (whence : Nat) (entries : List SubEntry)
    (cb : String → fsal_dir_result) (fuel : Nat) : ReaddirOut :=
  let dir :=
    if !(dir.flags.trust_content && dir.flags.dir_populated &&
         dir.flags.trust_dir_chunks) then
      mdcache_dirent_invalidate_all dir
    else dir
  let look_ck := if whence == 0 then dir.first_ck else whence
  let set_first := whence == 0 && look_ck == 0
  mdcache_readdir_chunked_go p entries cb whence fuel dir whence look_ck
    set_first none []

/-- Embedding of the dispatching handle operation `mdcache_readdir`
(mdcache_handle.c:610-641): non-directories are rejected, bypass mode
goes straight to the sub-FSAL, chunking dispatches to the chunked
reader, and otherwise the legacy fully-populating path runs. -/
def mdcache_readdir (p : MdcacheParam) (dir : DirState) (whence : Nat)
    (entries : List SubEntry) (cb : String → fsal_dir_result)
    (fuel : Nat) : ReaddirOut :=
  if !dir.isDirectory then ⟨fsalstat NOTDIR 0, [], false, dir⟩
  else if dir.flags.bypass_dircache then
    mdcache_readdir_uncached dir whence entries cb
  else if 0 < p.avl_chunk then
    mdcache_readdir_chunked p dir whence entries cb fuel
  else
    mdcache_readdir_cached p dir whence entries cb

/- ------------------------------------------------------------------ -/
/- Attribute refresh (mdcache_refresh_attrs) and the setattrs paths.   -/
/- ------------------------------------------------------------------ -/

/-- A cache entry as the attribute paths see it: its attributes and its
directory payload (the latter is meaningful only when
`dir.isDirectory`). -/
structure MdEntry where
  attrs : Attrs
  dir : DirState
  deriving DecidableEq, Repr

/-- Embedding of `mdcache_refresh_attrs` (mdcache_handle.c:1089-1175).
`sub_status` and `sub_attrs` are the result of the sub-FSAL getattrs
call; on success the entry's attributes are replaced, and when
`invalidate` was requested on a directory whose new mtime is greater
than the cached one (`gsh_time_cmp(&oldmtime, &new) < 0`) all cached
dirents and chunks are invalidated under the content write lock.  The
ACL bookkeeping of lines 1125-1150 does not touch the modelled state. -/
def mdcache_refresh_attrs (e : MdEntry) (invalidate : Bool)
    (sub_status : fsal_status_t) (sub_attrs : Attrs) :
    fsal_status_t × MdEntry :=
  let oldmtime := e.attrs.mtime
  if FSAL_IS_ERROR sub_status then (sub_status, e)
  else
    let e := { e with attrs := sub_attrs }
    if invalidate && e.dir.isDirectory &&
       gsh_time_cmp oldmtime e.attrs.mtime < 0 then
      (sub_status, { e with dir := mdcache_dirent_invalidate_all e.dir })
    else
      (sub_status, e)

/-- Embedding of `mdcache_setattrs` (mdcache_handle.c:1248-1297): record
the change counter, call the sub-FSAL setattrs (its status is an input),
refresh the attributes without invalidation, and if the refreshed change
counter still equals the pre-call value force it to the pre-call value
plus one (a uint64 increment). -/
def mdcache_setattrs (e : MdEntry) (setattr_status : fsal_status_t)
    (getattr_status : fsal_status_t) (newAttrs : Attrs) :
    fsal_status_t × MdEntry :=
  let change := e.attrs.change
  if FSAL_IS_ERROR setattr_status then (setattr_status, e)
  else
    let (status, e) := mdcache_refresh_attrs e false getattr_status newAttrs
    if !FSAL_IS_ERROR status && change == e.attrs.change then
      (status,
       { e with attrs := { e.attrs with change := (change + 1) % 2 ^ 64 } })
    else (status, e)

/-- Embedding of `mdcache_setattr2` (mdcache_handle.c:1307-1357): the
same change-counter protocol as `mdcache_setattrs` (the need_acl
computation of lines 1330-1337 only affects which attributes are
fetched). -/
def mdcache_setattr2 (e : MdEntry) (setattr_status : fsal_status_t)
    (getattr_status : fsal_status_t) (newAttrs : Attrs) :
    fsal_status_t × MdEntry :=
  let change := e.attrs.change
  if FSAL_IS_ERROR setattr_status then (setattr_status, e)
  else
    let (status, e) := mdcache_refresh_attrs e false getattr_status newAttrs
    if !FSAL_IS_ERROR status && change == e.attrs.change then
      (status,
       { e with attrs := { e.attrs with change := (change + 1) % 2 ^ 64 } })
    else (status, e)

/- ------------------------------------------------------------------ -/
/- Rename with fso_rename_changes_key (mdcache_rename).                -/
/- ------------------------------------------------------------------ -/

/-- Embedding of `mdc_unreachable` on the modelled flag state: the entry
is marked MDCACHE_UNREACHABLE. -/
def mdc_unreachable (f : MdeFlags) : MdeFlags :=
  { f with unreachable := true }

/-- Embedding of the `fso_rename_changes_key` branch of `mdcache_rename`
(mdcache_handle.c:936-967), taken after a successful sub-FSAL rename:
remove the old dirent from the source directory (dumping the source
directory's dirent cache only if that removal fails), dump the
destination directory's dirent cache, and mark the renamed object
unreachable.  Source and destination are distinct directories here;
`obj` is the renamed object's flag word. -/
def mdcache_rename_changes_key (olddir newdir : DirState)
    (obj : MdeFlags) (old_name : String) :
    DirState × DirState × MdeFlags :=
  let (status, olddir) := mdcache_dirent_remove olddir old_name
  let olddir :=
    if FSAL_IS_ERROR status then mdcache_dirent_invalidate_all olddir
    else olddir
  let newdir := mdcache_dirent_invalidate_all newdir
  (olddir, newdir, mdc_unreachable obj)

/- ------------------------------------------------------------------ -/
/- Lookup (mdc_try_get_cached, mdc_lookup_uncached, mdc_lookup).       -/
/- ------------------------------------------------------------------ -/

/-- Results of the collaborator calls a lookup may make, treated as
oracles: the ".." resolution, the keyed cache lookup of the child, the
optional-attribute fetch on a cache hit, and the two stages of the
uncached path. -/
structure LookupOracles where
  /-- status of `mdcache_locate_host` on the ".." path -/
  locate_host_status : fsal_status_t
  /-- whether `mdcache_find_keyed` on the cached child's key succeeds -/
  find_keyed_ok : Bool
  /-- status of `get_optional_attrs` on a cache hit (consulted only when
  attributes were requested; with a NULL attrs_out it returns success) -/
  getattrs_status : fsal_status_t
  /-- status of the sub-FSAL lookup inside `mdc_lookup_uncached` -/
  sub_lookup_status : fsal_status_t
  /-- status of `mdcache_alloc_and_check_handle` inside
  `mdc_lookup_uncached` -/
  alloc_check_status : fsal_status_t
  /-- the EXPORT_OPTION_TRUST_READIR_NEGATIVE_CACHE export option -/
  trust_negative_option : Bool
  deriving DecidableEq, Repr

/-- Embedding of `trust_negative_cache` (mdcache_helpers.c:56-62). -/
def trust_negative_cache (opt : Bool) (parent : DirState) : Bool :=
  opt && parent.icreate_refcnt == 0 && parent.flags.dir_populated

/-- Embedding of `mdc_try_get_cached` (mdcache_helpers.c:1110-1164):
STALE when the parent bypasses or distrusts its dirent cache, the child's
key on a name hit (STALE when the keyed lookup fails), and on a miss
NOENT when the negative cache is trusted, STALE otherwise. -/
def mdc_try_get_cached (parent : DirState) (name : String)
    (o : LookupOracles) : fsal_status_t × Option Nat :=
  if parent.flags.bypass_dircache then (fsalstat STALE 0, none)
  else if !parent.flags.trust_content then (fsalstat STALE 0, none)
  else
    match parent.active.find? (fun x => x.name == name) with
    | some d =>
      if o.find_keyed_ok then (fsalstat NO_ERROR 0, some d.ckey)
      else (fsalstat STALE 0, none)
    | none =>
      if trust_negative_cache o.trust_negative_option parent then
        (fsalstat NOENT 0, none)
      else (fsalstat STALE 0, none)

/-- Status of `mdc_lookup_uncached` (mdcache_helpers.c:1311-1366): a
failing sub-FSAL lookup is returned as is, otherwise the status of
`mdcache_alloc_and_check_handle` decides. -/
def mdc_lookup_uncached_status (o : LookupOracles) : fsal_status_t :=
  if FSAL_IS_ERROR o.sub_lookup_status then o.sub_lookup_status
  else o.alloc_check_status

/-- The `out:` conversion of `mdc_lookup` (mdcache_helpers.c:1289-1290):
a STALE major becomes NOENT. -/
def convert_stale_to_noent (s : fsal_status_t) : fsal_status_t :=
  if s.major == STALE then { s with major := NOENT } else s

/-- Embedding of `mdc_lookup` (mdcache_helpers.c:1193-1292), returning
the status handed to the caller.  The ".." path and every path that
reaches the `out:` label convert STALE to NOENT; the cache-hit path
(lines 1241-1262) returns the status of the optional-attribute fetch
directly. -/
def mdc_lookup (parent : DirState) (name : String) (uncached : Bool)
    (attrs_requested : Bool) (o : LookupOracles) : fsal_status_t :=
  if name == ".." then convert_stale_to_noent o.locate_host_status
  else if parent.flags.bypass_dircache then
    -- parent is not caching dirents; call the sub-FSAL directly
    convert_stale_to_noent (mdc_lookup_uncached_status o)
  else
    -- the read-lock attempt and the write-lock retry see the same state
    -- in this sequential model, so one call stands for both
    let (status, _) := mdc_try_get_cached parent name o
    if !FSAL_IS_ERROR status then
      -- cache hit: fetch attributes if requested and return that status
      -- without passing through the out: conversion
      if attrs_requested then o.getattrs_status else fsalstat NO_ERROR 0
    else if !uncached then convert_stale_to_noent status
    else if status.major != STALE then convert_stale_to_noent status
    else convert_stale_to_noent (mdc_lookup_uncached_status o)

/- ================================================================== -/
/- Theorems                                                            -/
/- ================================================================== -/

/-- C1: whenever `mdc_check_mapping` observes the export's UNEXPORT flag
— at the initial atomic pre-check, or at the re-check taken after the
attribute write lock and the export's mapping lock were acquired (which
the call reaches when the export is neither the fast-path export nor on
the entry's export list) — it returns STALE and adds no export-mapping
record to the entry's export list or the export's entry list, and the
cache-miss path of `mdcache_new_entry` consequently fails with STALE. -/
theorem check_mapping_unexport_stale (s : MappingState)
    (h : s.unexport_precheck = true ∨
         (s.first_export_id ≠ (s.export_id : Int) ∧
          s.export_id ∉ s.entry_export_list ∧
          s.unexport_recheck = true)) :
    mdc_check_mapping s = (fsalstat STALE 116, s) ∧
    mdcache_new_entry_miss s = (fsalstat STALE 0, s) := by
  have hcm : mdc_check_mapping s = (fsalstat STALE 116, s) := by
    rcases h with hpre | ⟨hfe, hmem, hre⟩
    · simp [mdc_check_mapping, hpre]
    · by_cases hpre : s.unexport_precheck
      · simp [mdc_check_mapping, hpre]
      · simp [mdc_check_mapping, hpre, hfe, hmem, hre]
  refine ⟨hcm, ?_⟩
  simp [mdcache_new_entry_miss, mdcache_alloc_handle, hcm, FSAL_IS_ERROR,
        fsalstat]

/-- Witness for C1 at a concrete state with the UNEXPORT flag set at the
pre-check. -/
theorem check_mapping_unexport_stale_witness :
    mdc_check_mapping ⟨true, false, -1, 5, 77, [], []⟩ =
      (fsalstat STALE 116, ⟨true, false, -1, 5, 77, [], []⟩) ∧
    mdcache_new_entry_miss ⟨true, false, -1, 5, 77, [], []⟩ =
      (fsalstat STALE 0, ⟨true, false, -1, 5, 77, [], []⟩) :=
  check_mapping_unexport_stale _ (Or.inl rfl)

/-- C2 counterexample: with `avl_max = 2` and a directory whose by-name
tree already holds exactly `avl_max` active dirents, the next
`mdc_add_cache` (insertion number avl_max + 1) succeeds — it does not
return OVERFLOW as the claim states — because the source tests
`avltree_size > avl_max`, not `>=`. -/
theorem add_cache_at_avl_max_succeeds :
    (mdc_add_cache ⟨2, 0, 16, 10, false⟩
      ⟨true, ⟨true, true, false, false, false, false⟩,
       [⟨"a", 3, 0, 11, false, false⟩, ⟨"b", 4, 0, 12, false, false⟩],
       [], [], [], 0, 0, 0⟩
      "c" 13 5 (fsalstat NO_ERROR 0)).1 = fsalstat NO_ERROR 0 ∧
    (mdc_add_cache ⟨2, 0, 16, 10, false⟩
      ⟨true, ⟨true, true, false, false, false, false⟩,
       [⟨"a", 3, 0, 11, false, false⟩, ⟨"b", 4, 0, 12, false, false⟩],
       [], [], [], 0, 0, 0⟩
      "c" 13 5 (fsalstat NO_ERROR 0)).2.active.length = 3 := by
  decide

/-- C2 as amended: `mdc_add_cache` fails with OVERFLOW (leaving the
directory unchanged) as soon as the by-name tree holds MORE than
`avl_max` active dirents — i.e. the first refused insertion is number
avl_max + 2, not avl_max + 1 — and when the readdir-population path
surfaces that OVERFLOW, `mdcache_readdir` sets BYPASS_DIRCACHE on the
directory and serves the request (and subsequent ones) uncached. -/
theorem add_cache_overflow_bypass (p : MdcacheParam)
    (dir dir2 : DirState) (name : String) (ckey hk : Nat)
    (st : fsal_status_t) (whence fuel : Nat) (entries : List SubEntry)
    (cb : String → fsal_dir_result)
    (hover : p.avl_max < dir.active.length)
    (hchunk : p.avl_chunk = 0)
    (hdir2 : dir2.isDirectory = true)
    (hnb2 : dir2.flags.bypass_dircache = false)
    (hpop : (mdcache_dirent_populate p dir2 entries).1.major = OVERFLOW) :
    mdc_add_cache p dir name ckey hk st = (fsalstat OVERFLOW 0, dir) ∧
    (mdcache_readdir p dir2 whence entries cb fuel).dir.flags.bypass_dircache
      = true := by
  constructor
  · simp [mdc_add_cache, hover]
  · have htrust : mdc_dircache_trusted dir2 = false := by
      by_contra hcon
      have ht : mdc_dircache_trusted dir2 = true := by
        cases hmt : mdc_dircache_trusted dir2 with
        | true => rfl
        | false => exact absurd hmt hcon
      have h1 : dir2.flags.dir_populated = true ∧
          dir2.flags.trust_content = true := by
        have := ht
        simp [mdc_dircache_trusted] at this
        exact ⟨this.2, this.1⟩
      rw [mdcache_dirent_populate, hdir2] at hpop
      simp [h1.1, h1.2] at hpop
      exact absurd hpop (by simp [fsalstat])
    rw [mdcache_readdir, hdir2, hnb2, hchunk]
    simp only [Bool.not_true, Bool.false_eq_true, if_false, lt_irrefl,
               if_true]
    rw [mdcache_readdir_cached, htrust]
    simp only [Bool.not_false, if_true]
    have herr : FSAL_IS_ERROR (mdcache_dirent_populate p dir2 entries).1
        = true := by
      rw [FSAL_IS_ERROR]
      have : (mdcache_dirent_populate p dir2 entries).1.major = OVERFLOW :=
        hpop
      simp [this]
    have hnst : ((mdcache_dirent_populate p dir2 entries).1.major == STALE)
        = false := by simp [hpop]
    have hov : ((mdcache_dirent_populate p dir2 entries).1.major ==
        OVERFLOW) = true := by simp [hpop]
    simp [herr, hnst, hov, mdcache_readdir_uncached,
          mdcache_dirent_invalidate_all]

/-- Witness for the amended C2 at concrete inputs: `avl_max = 1`,
a directory already holding two active dirents for the first conjunct,
and a fresh (unpopulated) directory whose four-entry population
overflows for the second. -/
theorem add_cache_overflow_bypass_witness :
    mdc_add_cache ⟨1, 0, 16, 10, false⟩
      ⟨true, ⟨true, true, false, false, false, false⟩,
       [⟨"a", 3, 0, 11, false, false⟩, ⟨"b", 4, 0, 12, false, false⟩],
       [], [], [], 0, 0, 0⟩ "c" 13 5 (fsalstat NO_ERROR 0) =
      (fsalstat OVERFLOW 0,
       ⟨true, ⟨true, true, false, false, false, false⟩,
        [⟨"a", 3, 0, 11, false, false⟩, ⟨"b", 4, 0, 12, false, false⟩],
        [], [], [], 0, 0, 0⟩) ∧
    (mdcache_readdir ⟨1, 0, 16, 10, false⟩
      ⟨true, ⟨true, true, false, false, false, false⟩, [], [], [], [],
       0, 0, 0⟩ 0
      [⟨"a", 3, 101⟩, ⟨"b", 4, 102⟩, ⟨"c", 5, 103⟩, ⟨"d", 6, 104⟩]
      (fun _ => DIR_CONTINUE) 10).dir.flags.bypass_dircache = true :=
  add_cache_overflow_bypass _ _ _ _ _ _ _ _ _ _ _
    (by decide) rfl rfl rfl (by decide)

/-- C3 counterexample: with `avl_chunk_split = 3` (the spec only
requires the split threshold to be at least 2 * avl_chunk, so odd values
are admissible), the insertion that brings a chunk to 3 entries splits
it into dirent lists of sizes 1 and 2 while both `num_entries` fields
are set to 3 / 2 = 1: the `num_entries` fields do NOT sum to the number
of dirents distributed over the two dirent lists, contradicting the
claim. -/
theorem chunk_split_odd_counterexample :
    ¬ (((place_new_dirent_chunk ⟨100, 2, 3, 10, false⟩
          ⟨0, [⟨"x1", 0, 10, 1, false, false⟩,
               ⟨"x2", 0, 20, 2, false, false⟩], 2, 99, none⟩
          ⟨"x3", 0, 30, 3, false, false⟩ 2 7).map Chunk.num_entries).sum
        =
        ((place_new_dirent_chunk ⟨100, 2, 3, 10, false⟩
          ⟨0, [⟨"x1", 0, 10, 1, false, false⟩,
               ⟨"x2", 0, 20, 2, false, false⟩], 2, 99, none⟩
          ⟨"x3", 0, 30, 3, false, false⟩ 2 7).map
            (fun c => c.dirents.length)).sum) := by
  decide

/-- C3 as amended: an insertion by `place_new_dirent` that brings a
chunk's `num_entries` up to `avl_chunk_split` splits the chunk into two:
the second half becomes a new chunk whose `prev_chunk` points at the
first half and whose `next_ck` is copied from the original chunk; both
`num_entries` fields are set to avl_chunk_split / 2 (integer division),
the first chunk's dirent list keeps avl_chunk_split / 2 dirents and the
new chunk receives the remaining avl_chunk_split - avl_chunk_split / 2,
so the `num_entries` fields sum to the number of dirents distributed
exactly when `avl_chunk_split` is even. -/
theorem chunk_split_amended (p : MdcacheParam) (c : Chunk) (d : Dirent)
    (pos newId : Nat)
    (hlen : c.num_entries = c.dirents.length)
    (hthr : c.num_entries + 1 = p.avl_chunk_split)
    (hpos : pos ≤ c.dirents.length) :
    ∃ c1 c2, place_new_dirent_chunk p c d pos newId = [c1, c2] ∧
      c2.prev_chunk = some c.id ∧
      c2.next_ck = c.next_ck ∧
      c1.num_entries = p.avl_chunk_split / 2 ∧
      c2.num_entries = p.avl_chunk_split / 2 ∧
      c1.dirents.length = p.avl_chunk_split / 2 ∧
      c2.dirents.length = p.avl_chunk_split - p.avl_chunk_split / 2 := by
  have hn1 : 1 ≤ p.avl_chunk_split := by omega
  have hlist :
      (c.dirents.take pos ++ [d] ++ c.dirents.drop pos).length =
        p.avl_chunk_split := by
    simp [List.length_take, List.length_drop]
    omega
  have hhalf : p.avl_chunk_split / 2 < p.avl_chunk_split :=
    Nat.div_lt_self (by omega) (by omega)
  rw [place_new_dirent_chunk, place_dirent_insert, chunk_split_step]
  simp only [hthr, beq_self_eq_true, if_true]
  cases hd : (c.dirents.take pos ++ [d] ++ c.dirents.drop pos).drop
      (p.avl_chunk_split / 2) with
  | nil =>
    exfalso
    have := congrArg List.length hd
    simp [List.length_drop, hlist] at this
    omega
  | cons here rest =>
    refine ⟨_, _, rfl, rfl, rfl, rfl, rfl, ?_, ?_⟩
    · simp [List.length_take, hlist]
      omega
    · have := congrArg List.length hd
      simp [List.length_drop, hlist] at this
      simp [hd]
      omega

/-- Witness for the amended C3 at an even threshold (`avl_chunk_split =
4`): inserting the fourth dirent splits the chunk into halves of two
dirents each. -/
theorem chunk_split_amended_witness :
    ∃ c1 c2,
      place_new_dirent_chunk ⟨100, 2, 4, 10, false⟩
        ⟨0, [⟨"x1", 0, 10, 1, false, false⟩,
             ⟨"x2", 0, 20, 2, false, false⟩,
             ⟨"x3", 0, 30, 3, false, false⟩], 3, 99, none⟩
        ⟨"x4", 0, 40, 4, false, false⟩ 3 7 = [c1, c2] ∧
      c2.prev_chunk = some 0 ∧
      c2.next_ck = 99 ∧
      c1.num_entries = 4 / 2 ∧
      c2.num_entries = 4 / 2 ∧
      c1.dirents.length = 4 / 2 ∧
      c2.dirents.length = 4 - 4 / 2 :=
  chunk_split_amended _ _ _ _ _ rfl rfl (by decide)

/-- C4: when `mdcache_refresh_attrs` is called on a directory entry with
invalidation requested and the sub-FSAL getattrs succeeds, the
directory's cached dirents and chunks are invalidated exactly when the
newly fetched mtime is greater than the previously cached one; with an
mtime that is not greater, the directory payload is left unmodified. -/
theorem refresh_attrs_mtime_invalidation (e : MdEntry) (a : Attrs)
    (st : fsal_status_t)
    (hdir : e.dir.isDirectory = true)
    (hok : FSAL_IS_ERROR st = false) :
    (gsh_time_cmp e.attrs.mtime a.mtime < 0 →
      (mdcache_refresh_attrs e true st a).2.dir =
        mdcache_dirent_invalidate_all e.dir) ∧
    (¬ gsh_time_cmp e.attrs.mtime a.mtime < 0 →
      (mdcache_refresh_attrs e true st a).2.dir = e.dir) := by
  constructor
  · intro hlt
    simp [mdcache_refresh_attrs, hok, hdir, hlt]
  · intro hge
    simp [mdcache_refresh_attrs, hok, hdir, hge]

/-- Witness for C4 at a concrete directory entry, once with a strictly
later mtime (content invalidated) and the hypothesis side discharged
concretely. -/
theorem refresh_attrs_mtime_invalidation_witness :
    (gsh_time_cmp (⟨⟨⟨1, 0⟩, 7⟩,
        ⟨true, ⟨true, true, true, true, false, false⟩,
         [⟨"a", 3, 0, 11, false, false⟩], [], [], [], 0, 0, 0⟩⟩ :
        MdEntry).attrs.mtime (⟨⟨2, 0⟩, 8⟩ : Attrs).mtime < 0 →
      (mdcache_refresh_attrs
        ⟨⟨⟨1, 0⟩, 7⟩,
         ⟨true, ⟨true, true, true, true, false, false⟩,
          [⟨"a", 3, 0, 11, false, false⟩], [], [], [], 0, 0, 0⟩⟩
        true (fsalstat NO_ERROR 0) ⟨⟨2, 0⟩, 8⟩).2.dir =
        mdcache_dirent_invalidate_all
          ⟨true, ⟨true, true, true, true, false, false⟩,
           [⟨"a", 3, 0, 11, false, false⟩], [], [], [], 0, 0, 0⟩) ∧
    (¬ gsh_time_cmp (⟨⟨⟨1, 0⟩, 7⟩,
        ⟨true, ⟨true, true, true, true, false, false⟩,
         [⟨"a", 3, 0, 11, false, false⟩], [], [], [], 0, 0, 0⟩⟩ :
        MdEntry).attrs.mtime (⟨⟨2, 0⟩, 8⟩ : Attrs).mtime < 0 →
      (mdcache_refresh_attrs
        ⟨⟨⟨1, 0⟩, 7⟩,
         ⟨true, ⟨true, true, true, true, false, false⟩,
          [⟨"a", 3, 0, 11, false, false⟩], [], [], [], 0, 0, 0⟩⟩
        true (fsalstat NO_ERROR 0) ⟨⟨2, 0⟩, 8⟩).2.dir =
        ⟨true, ⟨true, true, true, true, false, false⟩,
         [⟨"a", 3, 0, 11, false, false⟩], [], [], [], 0, 0, 0⟩) :=
  refresh_attrs_mtime_invalidation _ _ _ rfl rfl

/-- C5 counterexample: `mdc_lookup` CAN return STALE — on a cache hit
with attributes requested, the status of the optional attribute fetch is
returned directly (mdcache_helpers.c:1262) without passing through the
STALE-to-NOENT conversion at the `out:` label, so a STALE from getattrs
reaches the caller. -/
theorem lookup_stale_counterexample :
    (mdc_lookup
      ⟨true, ⟨true, true, true, true, false, false⟩,
       [⟨"f", 3, 0, 21, false, false⟩], [], [], [], 0, 0, 0⟩
      "f" true true
      ⟨fsalstat NO_ERROR 0, true, fsalstat STALE 116,
       fsalstat NO_ERROR 0, fsalstat NO_ERROR 0, false⟩).major
      = STALE := by
  decide

/-- The `out:` conversion never lets a STALE major through. -/
theorem convert_stale_to_noent_not_stale (s : fsal_status_t) :
    (convert_stale_to_noent s).major ≠ STALE := by
  rw [convert_stale_to_noent]
  by_cases h : s.major = STALE
  · simp [h]
  · simp [h]

/-- C5 as amended: `mdc_lookup` never returns STALE except through the
optional-attribute fetch on a cache hit — whenever that fetch does not
report STALE (in particular whenever attributes are not requested),
every STALE arising on the lookup path (bypassed or untrusted parent
cache, missing mapping, sub-FSAL stale) is converted: recovered by the
uncached lookup or surfaced as NOENT. -/
theorem lookup_never_stale_amended (parent : DirState) (name : String)
    (uncached attrs_requested : Bool) (o : LookupOracles)
    (hga : o.getattrs_status.major ≠ STALE) :
    (mdc_lookup parent name uncached attrs_requested o).major ≠ STALE := by
  rw [mdc_lookup]
  by_cases hdd : name == ".."
  · simp only [hdd, if_true]
    exact convert_stale_to_noent_not_stale _
  · simp only [hdd, Bool.false_eq_true, if_false]
    by_cases hbp : parent.flags.bypass_dircache
    · simp only [hbp, if_true]
      exact convert_stale_to_noent_not_stale _
    · simp only [hbp, Bool.false_eq_true, if_false]
      by_cases herr : FSAL_IS_ERROR (mdc_try_get_cached parent name o).1
      · simp only [herr, Bool.not_true, Bool.false_eq_true, if_false]
        by_cases hu : uncached
        · simp only [hu, Bool.not_true, Bool.false_eq_true, if_false]
          by_cases hst : (mdc_try_get_cached parent name o).1.major = STALE
          · simp only [hst, bne_self_eq_false, Bool.false_eq_true,
                       if_false]
            exact convert_stale_to_noent_not_stale _
          · have : ((mdc_try_get_cached parent name o).1.major != STALE)
                = true := by simp [hst]
            simp only [this, if_true]
            exact convert_stale_to_noent_not_stale _
        · have : uncached = false := by
            cases uncached with
            | true => exact absurd rfl hu
            | false => rfl
          simp only [this, Bool.not_false, if_true]
          exact convert_stale_to_noent_not_stale _
      · simp only [herr, Bool.not_false, if_true]
        by_cases har : attrs_requested
        · simp only [har, if_true]
          exact hga
        · have : attrs_requested = false := by
            cases attrs_requested with
            | true => exact absurd rfl har
            | false => rfl
          simp only [this, Bool.false_eq_true, if_false]
          simp [fsalstat]

/-- Witness for the amended C5: a concrete lookup on an untrusted parent
whose sub-FSAL lookup reports STALE still yields NOENT, not STALE. -/
theorem lookup_never_stale_amended_witness :
    (mdc_lookup
      ⟨true, ⟨true, false, false, false, false, false⟩, [], [], [], [],
       0, 0, 0⟩
      "g" true false
      ⟨fsalstat NO_ERROR 0, true, fsalstat NO_ERROR 0,
       fsalstat STALE 116, fsalstat NO_ERROR 0, false⟩).major ≠ STALE :=
  lookup_never_stale_amended _ _ _ _ _ (by decide)

/-- C6 counterexample: with chunking enabled (avl_chunk = 8, the
configured default mode for this code base), a readdir on a cached
directory with starting cookie 1 (< 3) is NOT rejected with BADCOOKIE:
the chunked path has no cookie-floor check, so the directory is
populated from the sub-FSAL and the per-dirent callback is invoked for
both entries, returning success. -/
theorem readdir_chunked_small_cookie_counterexample :
    mdcache_readdir ⟨100, 8, 16, 10, false⟩
      ⟨true, ⟨true, true, false, false, false, false⟩, [], [], [], [],
       0, 0, 0⟩ 1
      [⟨"a", 3, 101⟩, ⟨"b", 4, 102⟩] (fun _ => DIR_CONTINUE) 10
      = ⟨fsalstat NO_ERROR 0, ["a", "b"], true,
         ⟨true, ⟨true, true, true, false, false, false⟩,
          [⟨"a", 3, 3, 101, false, false⟩, ⟨"b", 4, 4, 102, false, false⟩],
          [],
          [⟨0, [⟨"a", 3, 3, 101, false, false⟩,
                ⟨"b", 4, 4, 102, true, false⟩], 2, 0, none⟩],
          [], 0, 0, 1⟩⟩ := by
  decide

/-- C6 as amended: in the legacy, non-chunked cache mode (avl_chunk =
0), a readdir on a cached (non-bypass) directory whose dirent cache is
trusted returns BADCOOKIE for every nonzero starting cookie below 3,
without invoking the per-dirent callback; the chunked path performs no
such cookie check. -/
theorem readdir_badcookie_legacy (p : MdcacheParam) (dir : DirState)
    (whence fuel : Nat) (entries : List SubEntry)
    (cb : String → fsal_dir_result)
    (hchunk : p.avl_chunk = 0)
    (hdir : dir.isDirectory = true)
    (hnb : dir.flags.bypass_dircache = false)
    (htrust : mdc_dircache_trusted dir = true)
    (h1 : 0 < whence) (h3 : whence < 3) :
    mdcache_readdir p dir whence entries cb fuel =
      ⟨fsalstat BADCOOKIE 0, [], false, dir⟩ := by
  rw [mdcache_readdir, hdir, hnb, hchunk]
  simp only [Bool.not_true, Bool.false_eq_true, if_false, lt_irrefl,
             if_true]
  rw [mdcache_readdir_cached, htrust]
  simp [FSAL_IS_ERROR, fsalstat, h1, h3]

/-- Witness for the amended C6: a trusted, populated legacy directory
queried at cookie 2 yields BADCOOKIE and no callback. -/
theorem readdir_badcookie_legacy_witness :
    mdcache_readdir ⟨100, 0, 16, 10, false⟩
      ⟨true, ⟨true, true, true, true, false, false⟩,
       [⟨"a", 3, 0, 11, false, false⟩], [], [], [], 0, 0, 0⟩ 2
      [⟨"a", 3, 101⟩] (fun _ => DIR_CONTINUE) 10
      = ⟨fsalstat BADCOOKIE 0, [], false,
         ⟨true, ⟨true, true, true, true, false, false⟩,
          [⟨"a", 3, 0, 11, false, false⟩], [], [], [], 0, 0, 0⟩⟩ :=
  readdir_badcookie_legacy _ _ _ _ _ _ rfl rfl rfl rfl
    (by decide) (by decide)

/-- C7 counterexample: after a rename-changes-key of "old" out of a
source directory that also caches a dirent "other", the source
directory's dirent cache is NOT dumped — "other" is still cached active
and "old" is retained as a deleted dirent — so the claim that both
directories' dirent caches are dumped fails on the source side. -/
theorem rename_changes_key_counterexample :
    (mdcache_rename_changes_key
      ⟨true, ⟨true, true, true, true, false, false⟩,
       [⟨"old", 3, 0, 21, false, false⟩, ⟨"other", 4, 0, 22, false, false⟩],
       [], [], [], 0, 0, 0⟩
      ⟨true, ⟨true, true, true, true, false, false⟩,
       [⟨"z", 9, 0, 33, false, false⟩], [], [], [], 0, 0, 0⟩
      ⟨true, true, false, false, false, false⟩ "old").1.active =
      [⟨"other", 4, 0, 22, false, false⟩] ∧
    ¬ ((mdcache_rename_changes_key
      ⟨true, ⟨true, true, true, true, false, false⟩,
       [⟨"old", 3, 0, 21, false, false⟩, ⟨"other", 4, 0, 22, false, false⟩],
       [], [], [], 0, 0, 0⟩
      ⟨true, ⟨true, true, true, true, false, false⟩,
       [⟨"z", 9, 0, 33, false, false⟩], [], [], [], 0, 0, 0⟩
      ⟨true, true, false, false, false, false⟩ "old").1.active = [] ∧
      (mdcache_rename_changes_key
      ⟨true, ⟨true, true, true, true, false, false⟩,
       [⟨"old", 3, 0, 21, false, false⟩, ⟨"other", 4, 0, 22, false, false⟩],
       [], [], [], 0, 0, 0⟩
      ⟨true, ⟨true, true, true, true, false, false⟩,
       [⟨"z", 9, 0, 33, false, false⟩], [], [], [], 0, 0, 0⟩
      ⟨true, true, false, false, false, false⟩ "old").1.deleted = []) := by
  decide

/-- Removal of a dirent under the content write lock: on a cached
(non-bypass) directory the status is success and the active name tree
afterwards holds exactly the dirents whose name differs from the removed
one (the named dirent, if present, moved to the deleted tree). -/
theorem dirent_remove_active (d : DirState) (name : String)
    (hdir : d.isDirectory = true)
    (hnb : d.flags.bypass_dircache = false) :
    (mdcache_dirent_remove d name).1 = fsalstat NO_ERROR 0 ∧
    (mdcache_dirent_remove d name).2.active =
      d.active.filter (fun x => x.name != name) := by
  rw [mdcache_dirent_remove, mdcache_dirent_find, hdir]
  simp only [hnb, Bool.false_eq_true, if_false, Bool.not_true]
  by_cases hlen : d.active.length == 0
  · have : d.active = [] := by
      cases hact : d.active with
      | nil => rfl
      | cons x xs => rw [hact] at hlen; simp at hlen
    by_cases ht : mdc_dircache_trusted d
    · simp [hlen, ht, FSAL_IS_ERROR, fsalstat, this]
    · simp [hlen, ht, FSAL_IS_ERROR, fsalstat, this]
  · simp only [hlen, Bool.false_eq_true, if_false]
    cases hfind : d.active.find? (fun x => x.name == name) with
    | some dirent =>
      simp [hfind, FSAL_IS_ERROR, fsalstat, avl_dirent_set_deleted]
    | none =>
      have hfilter : d.active.filter (fun x => x.name != name) =
          d.active := by
        rw [List.filter_eq_self]
        intro a ha
        have := List.find?_eq_none.mp hfind a ha
        simp at this
        simp [this]
      by_cases ht : mdc_dircache_trusted d
      · simp [hfind, ht, FSAL_IS_ERROR, fsalstat, hfilter]
      · simp [hfind, ht, FSAL_IS_ERROR, fsalstat, hfilter]

/-- C7 as amended: a successful rename through a sub-FSAL that reports
`fso_rename_changes_key` marks the renamed object's cache entry
UNREACHABLE and dumps the DESTINATION directory's dirent cache; in the
SOURCE directory only the old-name dirent is removed from the active
names (the rest of the source directory's dirent cache is preserved; it
would be dumped only if that removal failed, which cannot happen on a
cached directory). -/
theorem rename_changes_key_amended (olddir newdir : DirState)
    (obj : MdeFlags) (old_name : String)
    (hdir : olddir.isDirectory = true)
    (hnb : olddir.flags.bypass_dircache = false) :
    (mdcache_rename_changes_key olddir newdir obj old_name).2.2.unreachable
      = true ∧
    (mdcache_rename_changes_key olddir newdir obj old_name).2.1 =
      mdcache_dirent_invalidate_all newdir ∧
    (mdcache_rename_changes_key olddir newdir obj old_name).1.active =
      olddir.active.filter (fun x => x.name != old_name) := by
  obtain ⟨hst, hact⟩ := dirent_remove_active olddir old_name hdir hnb
  have hrm : mdcache_dirent_remove olddir old_name =
      (fsalstat NO_ERROR 0, (mdcache_dirent_remove olddir old_name).2) := by
    rw [← hst]
  rw [mdcache_rename_changes_key, hrm]
  simp [FSAL_IS_ERROR, fsalstat, mdc_unreachable, hact]

/-- Witness for the amended C7 at the same concrete directories as the
counterexample. -/
theorem rename_changes_key_amended_witness :
    (mdcache_rename_changes_key
      ⟨true, ⟨true, true, true, true, false, false⟩,
       [⟨"old", 3, 0, 21, false, false⟩, ⟨"other", 4, 0, 22, false, false⟩],
       [], [], [], 0, 0, 0⟩
      ⟨true, ⟨true, true, true, true, false, false⟩,
       [⟨"z", 9, 0, 33, false, false⟩], [], [], [], 0, 0, 0⟩
      ⟨true, true, false, false, false, false⟩ "old").2.2.unreachable
      = true ∧
    (mdcache_rename_changes_key
      ⟨true, ⟨true, true, true, true, false, false⟩,
       [⟨"old", 3, 0, 21, false, false⟩, ⟨"other", 4, 0, 22, false, false⟩],
       [], [], [], 0, 0, 0⟩
      ⟨true, ⟨true, true, true, true, false, false⟩,
       [⟨"z", 9, 0, 33, false, false⟩], [], [], [], 0, 0, 0⟩
      ⟨true, true, false, false, false, false⟩ "old").2.1 =
      mdcache_dirent_invalidate_all
        ⟨true, ⟨true, true, true, true, false, false⟩,
         [⟨"z", 9, 0, 33, false, false⟩], [], [], [], 0, 0, 0⟩ ∧
    (mdcache_rename_changes_key
      ⟨true, ⟨true, true, true, true, false, false⟩,
       [⟨"old", 3, 0, 21, false, false⟩, ⟨"other", 4, 0, 22, false, false⟩],
       [], [], [], 0, 0, 0⟩
      ⟨true, ⟨true, true, true, true, false, false⟩,
       [⟨"z", 9, 0, 33, false, false⟩], [], [], [], 0, 0, 0⟩
      ⟨true, true, false, false, false, false⟩ "old").1.active =
      ([⟨"old", 3, 0, 21, false, false⟩,
        ⟨"other", 4, 0, 22, false, false⟩] : List Dirent).filter
        (fun x => x.name != "old") :=
  rename_changes_key_amended _ _ _ _ rfl rfl

/-- C8: `mdcache_dirent_invalidate_all` empties the dirent cache (active
and deleted name trees, chunk list and detached list) and leaves the
flags with DIR_POPULATED clear while TRUST_CONTENT and TRUST_DIR_CHUNKS
are set: the now-empty cache is trusted again rather than left flagged
untrusted. -/
theorem invalidate_all_trusted_empty (d : DirState) :
    (mdcache_dirent_invalidate_all d).flags.dir_populated = false ∧
    (mdcache_dirent_invalidate_all d).flags.trust_content = true ∧
    (mdcache_dirent_invalidate_all d).flags.trust_dir_chunks = true ∧
    (mdcache_dirent_invalidate_all d).active = [] ∧
    (mdcache_dirent_invalidate_all d).deleted = [] ∧
    (mdcache_dirent_invalidate_all d).chunks = [] ∧
    (mdcache_dirent_invalidate_all d).detached = [] := by
  simp [mdcache_dirent_invalidate_all]

/-- C9: on a directory entry whose BYPASS_DIRCACHE flag is set, the
dirent-cache mutators `mdcache_dirent_add`, `mdcache_dirent_remove` and
`mdcache_dirent_rename` all return success while leaving the directory
state — every dirent structure — completely unmodified (for add, the
`*invalidate` out-parameter is also untouched). -/
theorem dirent_mutators_bypass_noop (p : MdcacheParam)
    (parent : DirState) (name oldname newname : String)
    (ckey hk cck : Nat) (inv : Bool)
    (hb : parent.flags.bypass_dircache = true)
    (hd : parent.isDirectory = true) :
    mdcache_dirent_add p parent name ckey hk cck inv =
      (fsalstat NO_ERROR 0, parent, inv) ∧
    mdcache_dirent_remove parent oldname = (fsalstat NO_ERROR 0, parent) ∧
    mdcache_dirent_rename p parent oldname newname =
      (fsalstat NO_ERROR 0, parent) := by
  refine ⟨?_, ?_, ?_⟩
  · simp [mdcache_dirent_add, hb, hd]
  · simp [mdcache_dirent_remove, hb]
  · simp [mdcache_dirent_rename, hb]

/-- Witness for C9 at a concrete bypassing directory. -/
theorem dirent_mutators_bypass_noop_witness :
    mdcache_dirent_add ⟨100, 8, 16, 10, false⟩
      ⟨true, ⟨true, true, true, true, true, false⟩,
       [⟨"a", 3, 0, 11, false, false⟩], [], [], [], 0, 0, 0⟩
      "n" 41 42 43 true =
      (fsalstat NO_ERROR 0,
       ⟨true, ⟨true, true, true, true, true, false⟩,
        [⟨"a", 3, 0, 11, false, false⟩], [], [], [], 0, 0, 0⟩, true) ∧
    mdcache_dirent_remove
      ⟨true, ⟨true, true, true, true, true, false⟩,
       [⟨"a", 3, 0, 11, false, false⟩], [], [], [], 0, 0, 0⟩ "a" =
      (fsalstat NO_ERROR 0,
       ⟨true, ⟨true, true, true, true, true, false⟩,
        [⟨"a", 3, 0, 11, false, false⟩], [], [], [], 0, 0, 0⟩) ∧
    mdcache_dirent_rename ⟨100, 8, 16, 10, false⟩
      ⟨true, ⟨true, true, true, true, true, false⟩,
       [⟨"a", 3, 0, 11, false, false⟩], [], [], [], 0, 0, 0⟩ "a" "b" =
      (fsalstat NO_ERROR 0,
       ⟨true, ⟨true, true, true, true, true, false⟩,
        [⟨"a", 3, 0, 11, false, false⟩], [], [], [], 0, 0, 0⟩) :=
  dirent_mutators_bypass_noop _ _ _ _ _ _ _ _ _ rfl rfl

/-- C10: after a setattrs or setattr2 in which both the sub-FSAL call
and the attribute refresh succeed, the entry's cached change counter
differs from its pre-call value: a refresh that reproduces the old value
is forced to the old value plus one (a uint64 increment, which can never
reproduce the old value modulo 2^64). -/
theorem setattrs_change_differs (e : MdEntry) (st gst : fsal_status_t)
    (a : Attrs)
    (hst : FSAL_IS_ERROR st = false)
    (hgst : FSAL_IS_ERROR gst = false) :
    (mdcache_setattrs e st gst a).2.attrs.change ≠ e.attrs.change ∧
    (mdcache_setattr2 e st gst a).2.attrs.change ≠ e.attrs.change := by
  have hre : mdcache_refresh_attrs e false gst a =
      (gst, { e with attrs := a }) := by
    simp [mdcache_refresh_attrs, hgst]
  by_cases hch : e.attrs.change == a.change
  · have hcheq : e.attrs.change = a.change := by simpa using hch
    constructor
    · simp only [mdcache_setattrs, hre, hst, hgst]
      simp [hgst, hch, hcheq]
      omega
    · simp only [mdcache_setattr2, hre, hst, hgst]
      simp [hgst, hch, hcheq]
      omega
  · have hcne : ¬ e.attrs.change = a.change := by
      intro hcon
      rw [hcon] at hch
      simp at hch
    constructor
    · simp only [mdcache_setattrs, hre, hst, hgst]
      simp [hgst, hch]
      exact fun hcon => hcne hcon.symm
    · simp only [mdcache_setattr2, hre, hst, hgst]
      simp [hgst, hch]
      exact fun hcon => hcne hcon.symm

/-- Witness for C10: a setattrs whose refresh reproduces the old change
counter 5 ends with counter 6. -/
theorem setattrs_change_differs_witness :
    (mdcache_setattrs
      ⟨⟨⟨1, 0⟩, 5⟩,
       ⟨false, ⟨true, true, true, true, false, false⟩, [], [], [], [],
        0, 0, 0⟩⟩
      (fsalstat NO_ERROR 0) (fsalstat NO_ERROR 0)
      ⟨⟨1, 0⟩, 5⟩).2.attrs.change ≠ 5 ∧
    (mdcache_setattr2
      ⟨⟨⟨1, 0⟩, 5⟩,
       ⟨false, ⟨true, true, true, true, false, false⟩, [], [], [], [],
        0, 0, 0⟩⟩
      (fsalstat NO_ERROR 0) (fsalstat NO_ERROR 0)
      ⟨⟨1, 0⟩, 5⟩).2.attrs.change ≠ 5 :=
  setattrs_change_differs _ _ _ _ rfl rfl

end MDC
